import Mathlib

/-!
Verification of the CloudShell backend (SSH/SFTP web gateway) against its
specification.  The Python sources under backend/ are shallowly embedded:
pure logic becomes Lean functions, mutable stores (session registry,
revocation table, known-hosts file) become explicit values threaded through
the functions, and calls into external libraries (jose JWT decoding, AESGCM,
json.loads, bcrypt) become explicit parameters or oracle arguments whose
contracts are stated as hypotheses.
-/

namespace CloudShell

/-! ### Token payloads (backend/routers/auth.py)

A decoded JWT payload.  Claims absent from the token are `none`; `exp` is a
unix timestamp. -/

structure Payload where
  sub : Option String
  exp : Option Nat
  jti : Option String
  bid : Option String
deriving DecidableEq

/-- Modelled from the spec: `BOOT_ID` in backend/main.py — "A UUID generated at
process start; embedded in every issued token (bid claim)".  The constant is
absent from the source tree, while `_get_boot_id` in backend/routers/auth.py
imports it from backend.main and the test suite asserts it is a UUID string.
It is modelled as an arbitrary per-process string held in this structure and
threaded explicitly to the functions that call `_get_boot_id`. -/
structure BootState where
  boot_id : String
deriving DecidableEq

/-- Embedding of `_make_token` (backend/routers/auth.py, line 69-76): the issued
payload is sub=username, exp=expire, jti=fresh uuid, bid=_get_boot_id().  The
fresh uuid and the computed expiry are passed in by the caller. -/
def make_token (username : String) (jti : String) (expire : Nat)
    (boot : BootState) : Payload :=
  { sub := some username, exp := some expire, jti := some jti,
    bid := some boot.boot_id }

/-- Rejection kinds raised by `get_current_user` / `_get_payload`
(backend/routers/auth.py); every kind is an HTTP 401. -/
inductive AuthReject where
  | could_not_validate
  | restart_invalidated
  | revoked
deriving DecidableEq

/-- HTTP status carried by each `AuthReject`: all three HTTPExceptions in
`get_current_user` use status 401. -/
def auth_reject_status : AuthReject → Nat
  | _ => 401

/-- Embedding of `get_current_user` (backend/routers/auth.py, line 110-141).
`decoded` is the outcome of `jwt.decode` on the presented token (`none`
models a JWTError: bad signature, malformed token or expired `exp`);
`revoked` models `_is_revoked`, i.e. membership of a jti in the
revoked_tokens table.  Checks happen in source order: decode, missing
sub/jti, bid versus the current boot id, then the revocation store. -/
def get_current_user (decoded : Option Payload) (boot : BootState)
    (revoked : String → Bool) : Except AuthReject String :=
  match decoded with
  | none => .error .could_not_validate
  | some payload =>
    match payload.sub, payload.jti with
    | some username, some jti =>
      if payload.bid ≠ some boot.boot_id then .error .restart_invalidated
      else if revoked jti then .error .revoked
      else .ok username
    | _, _ => .error .could_not_validate

/-! ### Credential verification and login (backend/routers/auth.py) -/

/-- Embedding of `_verify_credentials` (backend/routers/auth.py, line 85-93).
`db_hash` is the bcrypt hash stored in the admin_credentials row for
`username`, if any (`_get_hashed_password`); `bcrypt_verify` models
`pwd_context.verify`.  `secrets.compare_digest` is constant-time string
equality, embedded as plain equality of its outcome. -/
def verify_credentials (admin_user admin_password : String)
    (db_hash : Option String) (bcrypt_verify : String → String → Bool)
    (username password : String) : Bool :=
  if username ≠ admin_user then false
  else
    match db_hash with
    | some h => bcrypt_verify password h
    | none => password == admin_password

/-- Embedding of the credential branch of `login` (backend/routers/auth.py,
line 180-198): failed verification raises 401, success issues the token made
by `_make_token`. -/
def login (admin_user admin_password : String) (db_hash : Option String)
    (bcrypt_verify : String → String → Bool) (username password : String)
    (jti : String) (expire : Nat) (boot : BootState) : Except Nat Payload :=
  if verify_credentials admin_user admin_password db_hash bcrypt_verify
      username password then
    .ok (make_token username jti expire boot)
  else
    .error 401

/-! ### Revocation store and logout (backend/routers/auth.py) -/

/-- One row of the revoked_tokens table; the primary key is `jti`. -/
structure RevokedToken where
  jti : String
  expires_at : Nat
deriving DecidableEq

/-- Primary-key lookup `db.get(RevokedToken, jti)`. -/
def revoked_get (store : List RevokedToken) (jti : String) :
    Option RevokedToken :=
  store.find? (fun r => r.jti == jti)

/-- Embedding of `logout` (backend/routers/auth.py, line 225-259).  `decoded`
is the outcome of `jwt.decode` (`none` models JWTError); `now` stands in for
`datetime.now` when `exp` is missing or falsy.  Every return path of the
handler responds with its declared status 204; the store is only changed by
the upsert, which inserts the row only when no row with that jti exists. -/
def logout (store : List RevokedToken) (decoded : Option Payload)
    (now : Nat) : Nat × List RevokedToken :=
  match decoded with
  | none => (204, store)
  | some payload =>
    match payload.jti with
    | none => (204, store)
    | some jti =>
      if jti = "" then (204, store)
      else
        let exp_dt :=
          match payload.exp with
          | some e => if e = 0 then now else e
          | none => now
        match revoked_get store jti with
        | some _ => (204, store)
        | none => (204, store ++ [{ jti := jti, expires_at := exp_dt }])

/-- Number of revocation rows keyed on a given jti. -/
def revoked_count (store : List RevokedToken) (jti : String) : Nat :=
  (store.filter (fun r => r.jti == jti)).length

/-! ### Host-key policy (backend/services/ssh.py, `_make_accept_new_client`) -/

/-- Embedding of `validate_host_public_key` of the `_AcceptNewClient` returned
by `_make_accept_new_client` (backend/services/ssh.py, line 56-98).
`trusted` is the list of keys the known-hosts file holds for
(host, addr, port), already in serialized public form
(`export_public_key().decode()`); a file parse failure yields the empty
list.  `file` is the known-hosts file as a list of lines and `presented` the
serialized public form of the presented key.  Returns the accept decision
together with the file contents afterwards: a known host is accepted iff
some stored serialized key equals the presented one and the file is never
written; an unknown host appends one line `host presented.strip()` and is
accepted. -/
def validate_host_public_key (host : String) (presented : String)
    (trusted : List String) (file : List String) : Bool × List String :=
  if trusted ≠ [] then
    (trusted.any (fun stored => stored == presented), file)
  else
    (true, file ++ [host ++ " " ++ presented.trim])

/-! ### Shell session registry (backend/services/ssh.py) -/

/-- Modelled from the spec: the shell-session registry entry.  The `_Session`
dataclass in the source tree carries only `conn` and `process`, and
`get_session_meta` is absent altogether, while the spec ("Metadata captured
at open time: device_label, principal, source_ip"), the caller
backend/routers/terminal.py (imports `get_session_meta` and passes
device_label / cloudshell_user / source_ip to `create_session`) and the
test suite all require the metadata fields; the SFTP analogue
`_SftpSession` in backend/services/sftp.py, which is present, has exactly
this shape.  Connection and process handles are abstracted as opaque
numbers. -/
structure Session where
  conn : Nat
  process : Option Nat := none
  device_label : String := ""
  cloudshell_user : String := ""
  source_ip : Option String := none
deriving DecidableEq

/-- Python dict lookup on the `_sessions` registry. -/
def sessions_get : List (String × Session) → String → Option Session
  | [], _ => none
  | (k, v) :: rest, sid => if k == sid then some v else sessions_get rest sid

/-- Python dict assignment on the `_sessions` registry: replace the binding if
the key exists, append it otherwise. -/
def sessions_set : List (String × Session) → String → Session →
    List (String × Session)
  | [], k, v => [(k, v)]
  | (k', v') :: rest, k, v =>
    if k' == k then (k', v) :: rest else (k', v') :: sessions_set rest k v

/-- Modelled from the spec: the registry effect of `create_session`
(backend/services/ssh.py, line 103-149) — "Stores the session under a fresh
UUID and records metadata".  `session_id` is the fresh uuid4 and `conn` the
connection handle returned by `asyncssh.connect`; the metadata keyword
arguments are the ones backend/routers/terminal.py passes.  The stored
`process` is None at open time (the PTY is created later, by the bridge). -/
def create_session (sessions : List (String × Session)) (session_id : String)
    (conn : Nat) (device_label cloudshell_user : String)
    (source_ip : Option String) : List (String × Session) :=
  sessions_set sessions session_id
    { conn := conn, process := none, device_label := device_label,
      cloudshell_user := cloudshell_user, source_ip := source_ip }

/-- Modelled from the spec: `get_session_meta(session_id)` — "meta(session_id)
→ (device_label, principal, source_ip); returns empty sentinels for unknown
ids".  The function is absent from backend/services/ssh.py; its sentinels
("", "", None) are mirrored from the present SFTP analogue
`get_sftp_session_meta` (backend/services/sftp.py, line 111-116) and from
the test suite. -/
def get_session_meta (sessions : List (String × Session)) (sid : String) :
    String × String × Option String :=
  match sessions_get sessions sid with
  | some s => (s.device_label, s.cloudshell_user, s.source_ip)
  | none => ("", "", none)

/-! ### Terminal WebSocket token gate (backend/routers/terminal.py) -/

/-- Outcome of the `terminal_ws` handler before/at acceptance. -/
inductive WsOutcome where
  | close (code : Nat)
  | accept_stream
deriving DecidableEq

/-- Embedding of the token gate of `terminal_ws` (backend/routers/terminal.py,
line 101-131): a missing token query parameter closes the socket with 4001;
a `jose_jwt.decode` failure (JWTError: bad signature, malformed, expired)
closes with 4001; any token that decodes is accepted
(`websocket.accept()`) and `stream_session` runs.  `decoded` models
`jose_jwt.decode` on a given token string (`none` = JWTError).  Neither the
revocation store nor the boot id is an input: the handler never consults
them. -/
def terminal_ws_gate (token : Option String)
    (decoded : String → Option Payload) : WsOutcome :=
  match token with
  | none => .close 4001
  | some t =>
    match decoded t with
    | none => .close 4001
    | some _ => .accept_stream

/-! ### Terminal bridge inbound loop (backend/services/ssh.py, `ws_to_ssh`)

The inbound loop of `stream_session` receives binary frames.  A frame whose
first byte is 0x7B (the opening-brace character) is fed to `json.loads`; a
frame of that shape that parses successfully is necessarily a JSON object,
so the loads outcome is either a raise of json.JSONDecodeError or an object
given as its field list.  JSON field values are modelled by `PyVal`. -/

inductive PyVal where
  | vstr (s : String)
  | vint (n : Int)
  | vbool (b : Bool)
  | vnull
  | vlist
  | vobj

/-- Python dict `.get` / `[]` access on a decoded JSON object. -/
def dict_get (fields : List (String × PyVal)) (key : String) : Option PyVal :=
  (fields.find? (fun f => f.1 == key)).map (fun f => f.2)

/-- Python comparison `ctrl.get("type") == "resize"`: true exactly when the
field is present and is the string "resize" (comparison of a non-string
value with a string is False in Python). -/
def is_resize_type : Option PyVal → Bool
  | some (.vstr s) => s == "resize"
  | _ => false

/-- Outcome of Python `int(x)` on a JSON-decoded value. -/
inductive IntConv where
  | ok (n : Int)
  | value_error
  | type_error

/-- Python decimal-literal reading used by `int` on strings: an optional sign
followed by one or more digits (surrounding whitespace and underscores are
ignored in Python; this embedding covers the plain literal forms). -/
def str_to_int (s : String) : Option Int :=
  let core (ds : List Char) : Option Nat :=
    if ds ≠ [] ∧ ds.all Char.isDigit then
      some (ds.foldl (fun acc c => acc * 10 + (c.toNat - 48)) 0)
    else none
  match s.toList with
  | '-' :: rest => (core rest).map (fun n => -(n : Int))
  | '+' :: rest => (core rest).map (fun n => (n : Int))
  | l => (core l).map (fun n => (n : Int))

/-- Embedding of `int(x)` on JSON-decoded values: ints convert to themselves,
bools to 0/1, strings convert iff they read as a decimal literal
(ValueError otherwise); None, lists and objects raise TypeError. -/
def py_int : PyVal → IntConv
  | .vint n => .ok n
  | .vbool b => .ok (if b then 1 else 0)
  | .vstr s =>
    match str_to_int s with
    | some n => .ok n
    | none => .value_error
  | .vnull => .type_error
  | .vlist => .type_error
  | .vobj => .type_error

/-- Outcome of `json.loads` on a frame whose first byte is 0x7B: either it
raises json.JSONDecodeError, or it yields a JSON object (field list). -/
inductive LoadsResult where
  | raises
  | obj (fields : List (String × PyVal))

/-- What one iteration of the inbound loop does with the received frame. -/
inductive FrameAction where
  | resize (cols rows : Int)
  | consume
  | forward
  | crash
deriving DecidableEq

/-- Embedding of one iteration of `ws_to_ssh` (backend/services/ssh.py, line
193-214) on frame `message`, with `loads` the outcome of
`json.loads(message)` (consulted only when the first byte is 0x7B).
Source behaviour: a frame not starting with 0x7B is written to
`process.stdin` (`forward`); so is one whose parse raises
json.JSONDecodeError, and one whose cols/rows access raises KeyError or
whose int() conversion raises ValueError — those exceptions are caught and
fall through to the write.  A parsed object whose type field is "resize"
with both dimensions converting calls `change_terminal_size` and the
`continue` skips the write (`resize`); a parsed object whose type field is
anything else also reaches the `continue`, so the frame is swallowed
without being written (`consume`).  An int() TypeError (None/list/object
dimension) is not in the except tuple, so it escapes the inner try and ends
the inbound task (`crash`). -/
def ws_to_ssh_step (message : List Nat) (loads : LoadsResult) : FrameAction :=
  if message.head? = some 123 then
    match loads with
    | .raises => .forward
    | .obj fields =>
      if is_resize_type (dict_get fields "type") then
        match dict_get fields "cols" with
        | none => .forward
        | some cv =>
          match py_int cv with
          | .type_error => .crash
          | .value_error => .forward
          | .ok c =>
            match dict_get fields "rows" with
            | none => .forward
            | some rv =>
              match py_int rv with
              | .type_error => .crash
              | .value_error => .forward
              | .ok r => .resize c r
      else .consume
  else .forward

/-- A frame is a well-formed resize envelope when it begins with 0x7B, parses
as a JSON object whose type field is the string "resize", and both `cols`
and `rows` are present and convert with `int()`. -/
def is_resize_envelope (message : List Nat) (loads : LoadsResult) : Prop :=
  message.head? = some 123 ∧
  ∃ fields, loads = .obj fields ∧
    is_resize_type (dict_get fields "type") = true ∧
    (∃ cv c, dict_get fields "cols" = some cv ∧ py_int cv = .ok c) ∧
    (∃ rv r, dict_get fields "rows" = some rv ∧ py_int rv = .ok r)

/-! ### SFTP directory listing (backend/services/sftp.py, `list_directory`) -/

/-- Remote file attributes as carried by an asyncssh SFTPName: optional size,
the FILEXFER type code (directory = 2), optional permission bits and
optional mtime. -/
structure SFTPAttrs where
  size : Option Nat
  ftype : Nat
  permissions : Option Nat
  mtime : Option Nat
deriving DecidableEq

/-- One asyncssh SFTPName as returned by `sftp.readdir`; the filename is taken
already decoded (the source lossily decodes byte names with replacement). -/
structure SFTPName where
  filename : String
  attrs : SFTPAttrs
deriving DecidableEq

/-- One entry of the `list_directory` result. -/
structure DirEntry where
  name : String
  path : String
  size : Nat
  is_dir : Bool
  permissions : Option String
  modified : Nat
deriving DecidableEq

/-- Python `oct(n)` for a nonnegative argument: the characters "0o" followed
by the base-8 digits of n with no zero padding. -/
def py_oct (n : Nat) : String :=
  "0o" ++ (Nat.toDigits 8 n).asString

/-- Whether a string ends with the slash character — Python's
`remote_path.endswith("/")`. -/
def ends_with_slash (s : String) : Bool :=
  s.toList.getLast? == some '/'

/-- Path join of `list_directory`: avoid a double slash when the remote path
already ends with one. -/
def join_path (remote_path filename : String) : String :=
  if ends_with_slash remote_path then remote_path ++ filename
  else remote_path ++ "/" ++ filename

/-- Embedding of the entry construction inside `list_directory`
(backend/services/sftp.py, line 151-158): sizes and mtimes default to 0,
is_dir tests the FILEXFER directory type code 2, and the permissions field
is `oct(permissions & 0o7777)` when present, None otherwise. -/
def make_entry (remote_path : String) (item : SFTPName) : DirEntry :=
  { name := item.filename,
    path := join_path remote_path item.filename,
    size := item.attrs.size.getD 0,
    is_dir := item.attrs.ftype == 2,
    permissions := item.attrs.permissions.map
      (fun p => py_oct (Nat.land p 4095)),
    modified := item.attrs.mtime.getD 0 }

/-- Sort key comparison used by `result.sort(key=lambda x: (not x[is_dir],
x[name].lower()))`: directories first, then case-insensitive name. -/
def entry_le (a b : DirEntry) : Bool :=
  if a.is_dir = b.is_dir then a.name.toLower ≤ b.name.toLower
  else a.is_dir

/-- Embedding of `list_directory` (backend/services/sftp.py, line 121-161) for
a live session: drop the "." and ".." entries, build the entries, and
stable-sort them with directories before files and case-insensitive names
ascending. -/
def list_directory (remote_path : String) (items : List SFTPName) :
    List DirEntry :=
  ((items.filter (fun i => i.filename ≠ "." ∧ i.filename ≠ "..")).map
    (make_entry remote_path)).mergeSort (entry_le · ·)

/-- A four-digit octal string: exactly four characters, all octal digits. -/
def four_digit_octal (s : String) : Bool :=
  s.length == 4 && s.toList.all (fun c => '0' ≤ c && c ≤ '7')

/-- The UTF-8 bytes of a frame carrying the JSON object with the single field
type="ping": it begins with 0x7B and parses as a JSON object, but is not a
resize envelope. -/
def ping_frame : List Nat :=
  [123, 34, 116, 121, 112, 101, 34, 58, 34, 112, 105, 110, 103, 34, 125]

/-- The outcome of `json.loads` on `ping_frame`. -/
def ping_loads : LoadsResult :=
  .obj [("type", .vstr "ping")]

/-- The UTF-8 bytes of a resize envelope with cols=120 and rows=40. -/
def resize_frame : List Nat :=
  [123, 34, 116, 121, 112, 101, 34, 58, 34, 114, 101, 115, 105, 122, 101,
   34, 44, 34, 99, 111, 108, 115, 34, 58, 49, 50, 48, 44, 34, 114, 111,
   119, 115, 34, 58, 52, 48, 125]

/-- The outcome of `json.loads` on `resize_frame`. -/
def resize_loads : LoadsResult :=
  .obj [("type", .vstr "resize"), ("cols", .vint 120), ("rows", .vint 40)]

/-! ### HTTP routing (backend/main.py and backend/routers/) -/

/-- One segment of a route path pattern: a literal or a path parameter. -/
inductive Segment where
  | lit (s : String)
  | param
deriving DecidableEq

/-- One registered route: HTTP method (WS for the WebSocket route) and the
full segment pattern from the root. -/
structure Route where
  method : String
  segments : List Segment
deriving DecidableEq

/-- Routes of the auth router, APIRouter(prefix="/auth")
(backend/routers/auth.py), relative to its mount point. -/
def auth_router : List Route :=
  [⟨"POST", [.lit "auth", .lit "token"]⟩,
   ⟨"POST", [.lit "auth", .lit "refresh"]⟩,
   ⟨"POST", [.lit "auth", .lit "logout"]⟩,
   ⟨"GET", [.lit "auth", .lit "me"]⟩,
   ⟨"POST", [.lit "auth", .lit "change-password"]⟩]

/-- Routes of the devices router, APIRouter(prefix="/devices")
(backend/routers/devices.py). -/
def devices_router : List Route :=
  [⟨"GET", [.lit "devices", .lit ""]⟩,
   ⟨"POST", [.lit "devices", .lit ""]⟩,
   ⟨"GET", [.lit "devices", .param]⟩,
   ⟨"PUT", [.lit "devices", .param]⟩,
   ⟨"DELETE", [.lit "devices", .param]⟩]

/-- Routes of the keys router, APIRouter(prefix="/keys")
(backend/routers/keys.py). -/
def keys_router : List Route :=
  [⟨"POST", [.lit "keys", .lit "generate"]⟩]

/-- Routes of the terminal router, APIRouter(prefix="/terminal")
(backend/routers/terminal.py). -/
def terminal_router : List Route :=
  [⟨"POST", [.lit "terminal", .lit "session", .param]⟩,
   ⟨"WS", [.lit "terminal", .lit "ws", .param]⟩]

/-- Routes of the SFTP router, APIRouter(prefix="/sftp")
(backend/routers/sftp.py) — the router module exists and declares these
routes. -/
def sftp_router : List Route :=
  [⟨"POST", [.lit "sftp", .lit "session", .param]⟩,
   ⟨"DELETE", [.lit "sftp", .lit "session", .param]⟩,
   ⟨"GET", [.lit "sftp", .param, .lit "list"]⟩,
   ⟨"GET", [.lit "sftp", .param, .lit "download"]⟩,
   ⟨"POST", [.lit "sftp", .param, .lit "upload"]⟩,
   ⟨"POST", [.lit "sftp", .param, .lit "delete"]⟩,
   ⟨"POST", [.lit "sftp", .param, .lit "rename"]⟩,
   ⟨"POST", [.lit "sftp", .param, .lit "mkdir"]⟩]

/-- Routes of the audit router, APIRouter(prefix="/audit")
(backend/routers/audit.py) — the router module exists and declares these
routes. -/
def audit_router : List Route :=
  [⟨"GET", [.lit "audit", .lit "logs"]⟩,
   ⟨"POST", [.lit "audit", .lit "prune"]⟩]

/-- Mounting a router under a path prefix segment, as
`app.include_router(r, prefix="/api")` does. -/
def mount (at_seg : String) (routes : List Route) : List Route :=
  routes.map (fun r => { r with segments := .lit at_seg :: r.segments })

/-- Embedding of the application route table built in backend/main.py, line
62-77: the auth, devices, keys and terminal routers are included under
/api, plus the direct GET /api/health route.  No other router is included
(the static-file mount serves files, not API routes). -/
def app_routes : List Route :=
  mount "api" auth_router ++ mount "api" devices_router ++
  mount "api" keys_router ++ mount "api" terminal_router ++
  [⟨"GET", [.lit "api", .lit "health"]⟩]

/-- Whether one pattern segment accepts one concrete path segment. -/
def seg_matches : Segment → String → Bool
  | .lit s, t => s == t
  | .param, _ => true

/-- Whether a route accepts a request: method equal and the pattern accepts
the path segment-by-segment. -/
def route_matches (r : Route) (method : String) (path : List String) : Bool :=
  r.method == method &&
  r.segments.length == path.length &&
  (List.zip r.segments path).all (fun p => seg_matches p.1 p.2)

/-- Whether any route of a table accepts a request; a request no route
accepts is answered 404 by the framework. -/
def routes_accept (routes : List Route) (method : String)
    (path : List String) : Bool :=
  routes.any (fun r => route_matches r method path)

/-! ### Secret vault (backend/services/crypto.py)

Base64 (RFC 4648) is embedded concretely: `base64.b64encode` and
`base64.b64decode` over byte lists, bytes being naturals below 256.  The
AESGCM primitive and Python's UTF-8 str/bytes codec are library calls and
enter as oracle arguments; their contracts (an AEAD decrypts its own
output under the same key and nonce, the codec decodes its own encoding)
are hypotheses of the theorems. -/

/-- The base64 alphabet. -/
def b64_alphabet : List Char :=
  "ABCDEFGHIJKLMNOPQRSTUVWXYZabcdefghijklmnopqrstuvwxyz0123456789+/".toList

/-- Character for a sextet value below 64. -/
def b64_char (n : Nat) : Char :=
  b64_alphabet.getD n '='

/-- Sextet value of an alphabet character, none for anything else. -/
def b64_char_val (c : Char) : Option Nat :=
  b64_alphabet.indexOf? c

/-- Regroup bytes as sextets, three bytes to four sextets, with the trailing
one or two bytes contributing two or three sextets. -/
def bytes_to_sextets : List Nat → List Nat
  | [] => []
  | [a] => [a / 4, a % 4 * 16]
  | [a, b] => [a / 4, a % 4 * 16 + b / 16, b % 16 * 4]
  | a :: b :: c :: rest =>
    (a / 4) :: (a % 4 * 16 + b / 16) :: (b % 16 * 4 + c / 64) :: (c % 64) ::
      bytes_to_sextets rest

/-- Padding characters appended for a byte count of the given residue mod 3. -/
def b64_pad : Nat → List Char
  | 1 => ['=', '=']
  | 2 => ['=']
  | _ => []

/-- Embedding of `base64.b64encode` on a byte list. -/
def b64_encode (bs : List Nat) : List Char :=
  (bytes_to_sextets bs).map b64_char ++ b64_pad (bs.length % 3)

/-- Regroup sextets as bytes, four sextets to three bytes, with a trailing
group of three or two sextets contributing two bytes or one. -/
def sextets_to_bytes : List Nat → List Nat
  | s0 :: s1 :: s2 :: s3 :: rest =>
    (s0 * 4 + s1 / 16) :: (s1 % 16 * 16 + s2 / 4) :: (s2 % 4 * 64 + s3) ::
      sextets_to_bytes rest
  | [s0, s1, s2] => [s0 * 4 + s1 / 16, s1 % 16 * 16 + s2 / 4]
  | [s0, s1] => [s0 * 4 + s1 / 16]
  | [_] => []
  | [] => []

/-- Read a character list as sextet values, failing on any character outside
the alphabet. -/
def map_char_vals : List Char → Option (List Nat)
  | [] => some []
  | c :: rest =>
    match b64_char_val c, map_char_vals rest with
    | some v, some vs => some (v :: vs)
    | _, _ => none

/-- Embedding of `base64.b64decode` on valid input: strip padding, read each
alphabet character as a sextet (failing on foreign characters), and
regroup the sextets as bytes. -/
def b64_decode (cs : List Char) : Option (List Nat) :=
  (map_char_vals (cs.filter (fun c => c ≠ '='))).map sextets_to_bytes

/-- An AEAD with a fixed key, as `AESGCM(_derive_key())`: `enc nonce data`
is the ciphertext-plus-tag of the single-call GCM output, `dec nonce ct`
recovers the plaintext or fails (InvalidTag). -/
structure AEAD where
  enc : List Nat → List Nat → List Nat
  dec : List Nat → List Nat → Option (List Nat)

/-- Python's str/bytes UTF-8 codec pair: `enc` is `str.encode()`, `dec` is
`bytes.decode()` (which can fail on non-UTF-8 input). -/
structure StrCodec where
  enc : String → List Nat
  dec : List Nat → Option String

/-- Embedding of `_encrypt_bytes` (backend/services/crypto.py, line 56-61):
the wire form is base64 of the 12-byte fresh nonce concatenated with the
GCM output.  The nonce drawn by `os.urandom(12)` is passed in. -/
def encrypt_bytes (g : AEAD) (nonce : List Nat) (data : List Nat) :
    List Char :=
  b64_encode (nonce ++ g.enc nonce data)

/-- Embedding of `_decrypt_bytes` (backend/services/crypto.py, line 64-69):
base64-decode the token, split off the first 12 bytes as the nonce, and
decrypt the rest. -/
def decrypt_bytes (g : AEAD) (token : List Char) : Option (List Nat) := do
  let raw ← b64_decode token
  g.dec (raw.take 12) (raw.drop 12)

/-- Embedding of `encrypt` (backend/services/crypto.py, line 46-48):
`_encrypt_bytes(plaintext.encode())`. -/
def encrypt (g : AEAD) (codec : StrCodec) (nonce : List Nat)
    (plaintext : String) : List Char :=
  encrypt_bytes g nonce (codec.enc plaintext)

/-- Embedding of `decrypt` (backend/services/crypto.py, line 51-53):
`_decrypt_bytes(token).decode()`. -/
def decrypt (g : AEAD) (codec : StrCodec) (token : List Char) :
    Option String := do
  let bs ← decrypt_bytes g token
  codec.dec bs

/-- A trivial AEAD instance satisfying the AEAD contract, used to exercise
the round-trip theorem on concrete data. -/
def id_aead : AEAD :=
  ⟨fun _ d => d, fun _ ct => some ct⟩

/-- An injective string/byte codec with a total inverse (code points in and
out), used to exercise the round-trip theorem on concrete data. -/
def chr_codec : StrCodec :=
  ⟨fun s => s.toList.map Char.toNat,
   fun l => some (String.mk (l.map Char.ofNat))⟩

/-! ## Helper lemmas -/

theorem sessions_get_set_self (m : List (String × Session)) (k : String)
    (v : Session) : sessions_get (sessions_set m k v) k = some v := by
  induction m with
  | nil => simp [sessions_set, sessions_get]
  | cons hd tl ih =>
    obtain ⟨k', v'⟩ := hd
    by_cases h : k' == k
    · simp [sessions_set, sessions_get, h]
    · simp only [sessions_set, h, Bool.false_eq_true, if_false]
      simpa [sessions_get, h] using ih

theorem revoked_get_none_count (store : List RevokedToken) (j : String)
    (h : revoked_get store j = none) : revoked_count store j = 0 := by
  induction store with
  | nil => rfl
  | cons r rest ih =>
    by_cases hr : r.jti == j
    · simp [revoked_get, List.find?, hr] at h
    · simp only [revoked_get, List.find?, hr] at h
      simpa [revoked_count, hr] using ih h

theorem revoked_get_some_count (store : List RevokedToken) (j : String)
    (r : RevokedToken) (h : revoked_get store j = some r) :
    1 ≤ revoked_count store j := by
  induction store with
  | nil => simp [revoked_get, List.find?] at h
  | cons a rest ih =>
    by_cases ha : a.jti == j
    · simp [revoked_count, ha]
    · simp only [revoked_get, List.find?, ha] at h
      simpa [revoked_count, ha] using ih h

theorem revoked_get_append_self (store : List RevokedToken) (j : String)
    (e : Nat) (h : revoked_get store j = none) :
    revoked_get (store ++ [{ jti := j, expires_at := e }]) j =
      some { jti := j, expires_at := e } := by
  induction store with
  | nil => simp [revoked_get, List.find?]
  | cons a rest ih =>
    by_cases ha : a.jti == j
    · simp [revoked_get, List.find?, ha] at h
    · simp only [revoked_get, List.find?, ha] at h ⊢
      exact ih h

theorem revoked_count_append_self (store : List RevokedToken) (j : String)
    (e : Nat) :
    revoked_count (store ++ [{ jti := j, expires_at := e }]) j =
      revoked_count store j + 1 := by
  simp [revoked_count, List.filter_append]

theorem logout_inserts (store : List RevokedToken) (psub : Option String)
    (pexp : Option Nat) (pbid : Option String) (now : Nat) (j : String)
    (hj : j ≠ "") (hfind : revoked_get store j = none) :
    ∃ e, logout store (some ⟨psub, pexp, some j, pbid⟩) now =
      (204, store ++ [{ jti := j, expires_at := e }]) :=
  ⟨match pexp with | some e => if e = 0 then now else e | none => now,
   by simp [logout, hj, hfind]⟩

theorem logout_noop (store : List RevokedToken) (psub : Option String)
    (pexp : Option Nat) (pbid : Option String) (now : Nat) (j : String)
    (hj : j ≠ "") (r : RevokedToken)
    (hfind : revoked_get store j = some r) :
    logout store (some ⟨psub, pexp, some j, pbid⟩) now = (204, store) := by
  simp [logout, hj, hfind]

/-! ## Claim theorems -/

/-- C1.  A successful `create_session` stores the session under the supplied
fresh UUID with the metadata captured at open time, and `get_session_meta`
returns exactly that (device_label, principal, source_ip) triple for the
registered id and the empty sentinels ("", "", None) for any id not in the
registry. -/
theorem create_session_records_meta (sessions : List (String × Session))
    (sid : String) (conn : Nat) (device_label cloudshell_user : String)
    (source_ip : Option String) (other : String)
    (_hfresh : sessions_get sessions sid = none)
    (hother : sessions_get
      (create_session sessions sid conn device_label cloudshell_user
        source_ip) other = none) :
    get_session_meta
        (create_session sessions sid conn device_label cloudshell_user
          source_ip) sid = (device_label, cloudshell_user, source_ip) ∧
    get_session_meta
        (create_session sessions sid conn device_label cloudshell_user
          source_ip) other = ("", "", none) := by
  constructor
  · unfold get_session_meta create_session
    rw [sessions_get_set_self]
  · unfold get_session_meta
    rw [hother]

/-- Witness for C1 at a concrete registry. -/
theorem create_session_records_meta_witness :
    get_session_meta
        (create_session [] "sid-1" 7 "box (10.0.0.1:22)" "admin"
          (some "5.6.7.8")) "sid-1" =
      ("box (10.0.0.1:22)", "admin", some "5.6.7.8") ∧
    get_session_meta
        (create_session [] "sid-1" 7 "box (10.0.0.1:22)" "admin"
          (some "5.6.7.8")) "sid-2" = ("", "", none) :=
  create_session_records_meta [] "sid-1" 7 "box (10.0.0.1:22)" "admin"
    (some "5.6.7.8") "sid-2" (by decide) (by decide)

/-- C2.  Every token issued by a successful login carries bid equal to the
process boot id, and a protected call presenting a decodable token (with sub
and jti) whose bid differs from the current boot id is rejected by
`get_current_user` with the invalidated-by-restart kind, whose HTTP status
is 401 — before the revocation store is even consulted. -/
theorem boot_id_token_and_validation (admin_user admin_password : String)
    (db_hash : Option String) (bcrypt_verify : String → String → Bool)
    (username password jti : String) (expire : Nat) (boot : BootState)
    (payload : Payload) (revoked : String → Bool) (u j : String)
    (hsub : payload.sub = some u) (hjti : payload.jti = some j)
    (hbid : payload.bid ≠ some boot.boot_id) :
    (∀ p, login admin_user admin_password db_hash bcrypt_verify username
        password jti expire boot = .ok p → p.bid = some boot.boot_id) ∧
    get_current_user (some payload) boot revoked =
      .error .restart_invalidated ∧
    auth_reject_status .restart_invalidated = 401 := by
  refine ⟨?_, ?_, rfl⟩
  · intro p hp
    unfold login at hp
    split at hp
    · cases hp
      rfl
    · cases hp
  · obtain ⟨psub, pexp, pjti, pbid⟩ := payload
    obtain rfl : psub = some u := hsub
    obtain rfl : pjti = some j := hjti
    simp [get_current_user, hbid]

/-- Witness for C2: a token minted under boot id B0 presented after a restart
to a process whose boot id is B1. -/
theorem boot_id_token_and_validation_witness :
    (∀ p, login "admin" "admin" none (fun _ _ => false) "admin" "admin"
        "jti-7" 500 ⟨"B1"⟩ = .ok p → p.bid = some "B1") ∧
    get_current_user
        (some ⟨some "admin", some 500, some "jti-7", some "B0"⟩) ⟨"B1"⟩
        (fun _ => false) = .error .restart_invalidated ∧
    auth_reject_status .restart_invalidated = 401 :=
  boot_id_token_and_validation "admin" "admin" none (fun _ _ => false)
    "admin" "admin" "jti-7" 500 ⟨"B1"⟩
    ⟨some "admin", some 500, some "jti-7", some "B0"⟩ (fun _ => false)
    "admin" "jti-7" rfl rfl (by decide)

/-- C6.  The accept-new host-key policy: when the known-hosts file holds at
least one entry for the host, the connection is accepted iff some stored
key's serialized public form equals the presented key's, and the file is
left unchanged (in particular on mismatch); when it holds none (a parse
failure yielding none included), the presented key is appended as a new
entry and the connection is accepted. -/
theorem hostkey_accept_new (host presented : String) (trusted : List String)
    (file : List String) :
    (trusted ≠ [] →
      ((validate_host_public_key host presented trusted file).1 = true ↔
        ∃ stored ∈ trusted, stored = presented) ∧
      (validate_host_public_key host presented trusted file).2 = file) ∧
    (trusted = [] →
      (validate_host_public_key host presented trusted file).1 = true ∧
      (validate_host_public_key host presented trusted file).2 =
        file ++ [host ++ " " ++ presented.trim]) := by
  constructor
  · intro h
    unfold validate_host_public_key
    rw [if_pos h]
    exact ⟨by simp [List.any_eq_true], rfl⟩
  · intro h
    subst h
    unfold validate_host_public_key
    simp

/-- Witness for C6: a known host with a matching stored key is accepted with
the file unchanged. -/
theorem hostkey_accept_new_witness :
    (validate_host_public_key "h1" "ssh-rsa AAAB" ["ssh-rsa AAAB"]
        ["h1 ssh-rsa AAAB"]).1 = true ∧
    (validate_host_public_key "h1" "ssh-rsa AAAB" ["ssh-rsa AAAB"]
        ["h1 ssh-rsa AAAB"]).2 = ["h1 ssh-rsa AAAB"] := by
  have h := (hostkey_accept_new "h1" "ssh-rsa AAAB" ["ssh-rsa AAAB"]
    ["h1 ssh-rsa AAAB"]).1 (by decide)
  exact ⟨h.1.mpr ⟨"ssh-rsa AAAB", by decide, rfl⟩, h.2⟩

/-- C7.  Logout is idempotent: for a token whose payload carries jti `j`,
logging out twice from a store respecting the primary-key invariant leaves
exactly one revocation row keyed on `j`, and both logouts return the
success status 204. -/
theorem logout_idempotent (store : List RevokedToken) (payload : Payload)
    (now : Nat) (j : String) (hjti : payload.jti = some j) (hj : j ≠ "")
    (hpk : revoked_count store j ≤ 1) :
    (logout store (some payload) now).1 = 204 ∧
    (logout (logout store (some payload) now).2 (some payload) now).1 =
      204 ∧
    revoked_count
      (logout (logout store (some payload) now).2 (some payload) now).2 j =
      1 := by
  obtain ⟨psub, pexp, pjti, pbid⟩ := payload
  obtain rfl : pjti = some j := hjti
  rcases hfind : revoked_get store j with - | r
  · obtain ⟨E, h1⟩ := logout_inserts store psub pexp pbid now j hj hfind
    have h2 := logout_noop (store ++ [{ jti := j, expires_at := E }]) psub
      pexp pbid now j hj _ (revoked_get_append_self store j E hfind)
    simp only [h1, h2]
    refine ⟨trivial, trivial, ?_⟩
    rw [revoked_count_append_self, revoked_get_none_count store j hfind]
  · have h1 := logout_noop store psub pexp pbid now j hj r hfind
    simp only [h1]
    refine ⟨trivial, trivial, ?_⟩
    exact Nat.le_antisymm hpk (revoked_get_some_count store j r hfind)

/-- Witness for C7: two logouts of the same token against an empty store. -/
theorem logout_idempotent_witness :
    (logout [] (some ⟨some "admin", some 900, some "jti-1", some "B"⟩)
        5).1 = 204 ∧
    (logout
        (logout [] (some ⟨some "admin", some 900, some "jti-1", some "B"⟩)
          5).2
        (some ⟨some "admin", some 900, some "jti-1", some "B"⟩) 5).1 =
      204 ∧
    revoked_count
        (logout
          (logout []
            (some ⟨some "admin", some 900, some "jti-1", some "B"⟩) 5).2
          (some ⟨some "admin", some 900, some "jti-1", some "B"⟩) 5).2
        "jti-1" = 1 :=
  logout_idempotent [] ⟨some "admin", some 900, some "jti-1", some "B"⟩ 5
    "jti-1" rfl (by decide) (by decide)

/-- C10.  A login whose username differs from the configured admin user fails
credential verification and is answered 401, whatever the password — even
one equal to the configured admin password or matching the stored hash. -/
theorem login_rejects_non_admin_username (admin_user admin_password : String)
    (db_hash : Option String) (bcrypt_verify : String → String → Bool)
    (username password jti : String) (expire : Nat) (boot : BootState)
    (h : username ≠ admin_user) :
    verify_credentials admin_user admin_password db_hash bcrypt_verify
      username password = false ∧
    login admin_user admin_password db_hash bcrypt_verify username password
      jti expire boot = .error 401 := by
  have hv : verify_credentials admin_user admin_password db_hash
      bcrypt_verify username password = false := by
    unfold verify_credentials
    rw [if_pos h]
  refine ⟨hv, ?_⟩
  unfold login
  rw [hv]
  rfl

/-- Witness for C10: the username mallory with the correct admin password is
still rejected. -/
theorem login_rejects_non_admin_username_witness :
    verify_credentials "admin" "admin" none (fun p h => p == h) "mallory"
      "admin" = false ∧
    login "admin" "admin" none (fun p h => p == h) "mallory" "admin"
      "jti-1" 500 ⟨"B"⟩ = .error 401 :=
  login_rejects_non_admin_username "admin" "admin" none (fun p h => p == h)
    "mallory" "admin" "jti-1" 500 ⟨"B"⟩ (by decide)

/-- C3.  The application route table built in backend/main.py answers
POST /api/sftp/session/(device_id) and POST /api/audit/prune with no route
at all (the framework's 404), even though the SFTP and audit router modules
declare exactly those routes and would accept the requests were they
mounted under /api: the include_router block mounts only the auth, devices,
keys and terminal routers. -/
theorem sftp_audit_routers_not_mounted :
    routes_accept app_routes "POST" ["api", "sftp", "session", "7"] =
      false ∧
    routes_accept app_routes "POST" ["api", "audit", "prune"] = false ∧
    routes_accept (mount "api" sftp_router) "POST"
      ["api", "sftp", "session", "7"] = true ∧
    routes_accept (mount "api" audit_router) "POST"
      ["api", "audit", "prune"] = true := by
  decide

/-- C4 counterexample.  A token whose jti sits in the revocation store and
whose bid differs from the current boot id — one that `get_current_user`
itself rejects — is nonetheless accepted by the terminal WebSocket gate and
the session is streamed, instead of the socket closing with 4001. -/
theorem terminal_ws_revoked_token_streams :
    revoked_get [{ jti := "jti-1", expires_at := 4102444800 }] "jti-1" =
      some { jti := "jti-1", expires_at := 4102444800 } ∧
    get_current_user
        (some ⟨some "admin", some 4102444800, some "jti-1",
          some "boot-old"⟩) ⟨"boot-new"⟩
        (fun j => j == "jti-1") = .error .restart_invalidated ∧
    terminal_ws_gate (some "a.b.c")
        (fun _ => some ⟨some "admin", some 4102444800, some "jti-1",
          some "boot-old"⟩) = .accept_stream := by
  refine ⟨rfl, ?_, rfl⟩
  simp [get_current_user]

/-- C4 (amended).  The terminal WebSocket endpoint closes the socket with
code 4001 exactly when the token query parameter is missing or the token
fails jose JWT decoding (bad signature, malformed, expired); any token that
decodes is accepted and the session is streamed — the handler consults
neither the revocation store nor the boot id, so revoked or
boot-id-mismatched tokens with a valid signature stream the session. -/
theorem terminal_ws_gate_spec (token : Option String)
    (decoded : String → Option Payload) :
    (terminal_ws_gate token decoded = .close 4001 ↔
      token = none ∨ ∃ t, token = some t ∧ decoded t = none) ∧
    ∀ t payload, token = some t → decoded t = some payload →
      terminal_ws_gate token decoded = .accept_stream := by
  constructor
  · rcases token with - | t
    · simp [terminal_ws_gate]
    · rcases hd : decoded t with - | p <;> simp [terminal_ws_gate, hd]
  · rintro t payload rfl hd
    simp [terminal_ws_gate, hd]

/-- Witness for C4 (amended) at a concrete decodable token. -/
theorem terminal_ws_gate_spec_witness :
    terminal_ws_gate (some "tok")
      (fun _ => some ⟨some "admin", some 1, some "j", some "b"⟩) =
      .accept_stream :=
  (terminal_ws_gate_spec (some "tok")
      (fun _ => some ⟨some "admin", some 1, some "j", some "b"⟩)).2
    "tok" ⟨some "admin", some 1, some "j", some "b"⟩ rfl rfl

/-- C5 counterexample.  The frame consisting of the JSON text with the single
field type="ping" is not a resize envelope, yet one iteration of
`ws_to_ssh` swallows it (the `continue` after a successful parse) instead
of writing it verbatim to the PTY input. -/
theorem ws_to_ssh_json_frame_swallowed :
    ¬ is_resize_envelope ping_frame ping_loads ∧
    ws_to_ssh_step ping_frame ping_loads = .consume := by
  constructor
  · rintro ⟨-, fields, hf, htype, -, -⟩
    cases hf
    exact absurd htype (by decide)
  · rfl

/-- C5 (amended).  In the inbound loop, a frame not starting with 0x7B, or
failing JSON parsing, or resize-shaped but with cols/rows missing
(KeyError) or not int()-convertible (ValueError), is written verbatim to
the PTY input; a frame parsing as a JSON object whose type is not "resize"
is consumed without being forwarded; a well-formed resize envelope resizes
the PTY and is consumed; a resize-shaped frame whose dimension value makes
int() raise TypeError ends the inbound task. -/
theorem ws_to_ssh_step_spec (message : List Nat) (loads : LoadsResult) :
    (message.head? ≠ some 123 → ws_to_ssh_step message loads = .forward) ∧
    (message.head? = some 123 →
      (loads = .raises → ws_to_ssh_step message loads = .forward) ∧
      ∀ fields, loads = .obj fields →
        (is_resize_type (dict_get fields "type") = false →
          ws_to_ssh_step message loads = .consume) ∧
        (is_resize_type (dict_get fields "type") = true →
          (dict_get fields "cols" = none →
            ws_to_ssh_step message loads = .forward) ∧
          ∀ cv, dict_get fields "cols" = some cv →
            (py_int cv = .value_error →
              ws_to_ssh_step message loads = .forward) ∧
            (py_int cv = .type_error →
              ws_to_ssh_step message loads = .crash) ∧
            ∀ c, py_int cv = .ok c →
              (dict_get fields "rows" = none →
                ws_to_ssh_step message loads = .forward) ∧
              ∀ rv, dict_get fields "rows" = some rv →
                (py_int rv = .value_error →
                  ws_to_ssh_step message loads = .forward) ∧
                (py_int rv = .type_error →
                  ws_to_ssh_step message loads = .crash) ∧
                ∀ r, py_int rv = .ok r →
                  ws_to_ssh_step message loads = .resize c r)) := by
  by_cases hm : message.head? = some 123
  · refine ⟨fun h => absurd hm h, fun _ => ⟨?_, ?_⟩⟩
    · rintro rfl
      simp [ws_to_ssh_step, hm]
    · rintro fields rfl
      refine ⟨fun ht => by simp [ws_to_ssh_step, hm, ht], fun ht => ⟨?_, ?_⟩⟩
      · intro hc
        simp [ws_to_ssh_step, hm, ht, hc]
      · rintro cv hc
        refine ⟨fun hv => by simp [ws_to_ssh_step, hm, ht, hc, hv],
          fun hv => by simp [ws_to_ssh_step, hm, ht, hc, hv], ?_⟩
        rintro c hv
        refine ⟨fun hr => by simp [ws_to_ssh_step, hm, ht, hc, hv, hr],
          ?_⟩
        rintro rv hr
        refine ⟨fun hw => by simp [ws_to_ssh_step, hm, ht, hc, hv, hr, hw],
          fun hw => by simp [ws_to_ssh_step, hm, ht, hc, hv, hr, hw],
          fun r hw => by simp [ws_to_ssh_step, hm, ht, hc, hv, hr, hw]⟩
  · refine ⟨fun _ => by simp [ws_to_ssh_step, hm], fun h => absurd h hm⟩

/-- Witness for C5 (amended): the canonical 120x40 resize envelope resizes
the PTY and is consumed. -/
theorem ws_to_ssh_step_spec_witness :
    ws_to_ssh_step resize_frame resize_loads = .resize 120 40 :=
  (((((((ws_to_ssh_step_spec resize_frame resize_loads).2 rfl).2
    [("type", .vstr "resize"), ("cols", .vint 120), ("rows", .vint 40)]
    rfl).2 (by decide)).2 (.vint 120) rfl).2.2 120 rfl).2 (.vint 40)
    rfl).2.2 40 rfl

/-- C9 counterexample.  A file with permission bits 0o755 is listed with
permissions "0o755" — Python's oct() rendering — which is not a four-digit
octal string. -/
theorem list_directory_permissions_not_four_digit :
    list_directory "/"
        [⟨"f.txt", ⟨some 512, 1, some 493, some 1700000000⟩⟩] =
      [{ name := "f.txt", path := "/f.txt", size := 512, is_dir := false,
         permissions := some "0o755", modified := 1700000000 }] ∧
    four_digit_octal "0o755" = false := by
  refine ⟨?_, by decide⟩
  unfold list_directory
  rw [show ((([⟨"f.txt", ⟨some 512, 1, some 493, some 1700000000⟩⟩] :
      List SFTPName).filter
        (fun i => i.filename ≠ "." ∧ i.filename ≠ "..")).map
      (make_entry "/")) =
    [make_entry "/" ⟨"f.txt", ⟨some 512, 1, some 493, some 1700000000⟩⟩]
    from by decide, List.mergeSort_singleton]
  decide

/-- C9 (amended).  Every entry returned by `list_directory` has a permissions
field that is either none (no permissions in the remote attributes) or
Python's oct() rendering — the characters "0o" followed by the unpadded
octal digits — of the permission bits masked to 0o7777. -/
theorem list_directory_permissions_format (remote_path : String)
    (items : List SFTPName) (e : DirEntry)
    (he : e ∈ list_directory remote_path items) :
    e.permissions = none ∨ ∃ p, p < 4096 ∧ e.permissions = some (py_oct p) := by
  unfold list_directory at he
  rw [List.mem_mergeSort] at he
  obtain ⟨item, -, rfl⟩ := List.mem_map.mp he
  rcases hp : item.attrs.permissions with - | p
  · left
    simp [make_entry, hp]
  · right
    refine ⟨Nat.land p 4095, ?_, by simp [make_entry, hp]⟩
    have h : Nat.land p 4095 ≤ 4095 := Nat.and_le_right
    omega

/-- Witness for C9 (amended) at a concrete listing. -/
theorem list_directory_permissions_format_witness :
    ({ name := "f.txt", path := "/f.txt", size := 512, is_dir := false,
        permissions := some "0o755", modified := 1700000000 } :
      DirEntry).permissions = none ∨
    ∃ p, p < 4096 ∧
      ({ name := "f.txt", path := "/f.txt", size := 512, is_dir := false,
          permissions := some "0o755", modified := 1700000000 } :
        DirEntry).permissions = some (py_oct p) :=
  list_directory_permissions_format "/"
    [⟨"f.txt", ⟨some 512, 1, some 493, some 1700000000⟩⟩] _ (by
      unfold list_directory
      rw [List.mem_mergeSort]
      decide)

/-! ## Base64 round-trip lemmas -/

theorem b64_char_val_b64_char :
    ∀ n, n < 64 → b64_char_val (b64_char n) = some n := by
  decide

theorem b64_char_ne_pad : ∀ n, n < 64 → b64_char n ≠ '=' := by
  decide

theorem bytes_to_sextets_lt (bs : List Nat) (h : ∀ b ∈ bs, b < 256) :
    ∀ s ∈ bytes_to_sextets bs, s < 64 := by
  induction bs using bytes_to_sextets.induct with
  | case1 => simp [bytes_to_sextets]
  | case2 a =>
    have ha := h a (by simp)
    simp only [bytes_to_sextets, List.mem_cons, List.not_mem_nil, or_false]
    rintro s (rfl | rfl) <;> omega
  | case3 a b =>
    have ha := h a (by simp)
    have hb := h b (by simp)
    simp only [bytes_to_sextets, List.mem_cons, List.not_mem_nil, or_false]
    rintro s (rfl | rfl | rfl) <;> omega
  | case4 a b c rest ih =>
    have ha := h a (by simp)
    have hb := h b (by simp)
    have hc := h c (by simp)
    have ih' := ih (fun x hx => h x (by simp [hx]))
    simp only [bytes_to_sextets, List.mem_cons]
    rintro s (rfl | rfl | rfl | rfl | hs)
    · omega
    · omega
    · omega
    · omega
    · exact ih' s hs

theorem sextets_to_bytes_bytes_to_sextets (bs : List Nat)
    (h : ∀ b ∈ bs, b < 256) :
    sextets_to_bytes (bytes_to_sextets bs) = bs := by
  induction bs using bytes_to_sextets.induct with
  | case1 => rfl
  | case2 a =>
    have ha := h a (by simp)
    simp only [bytes_to_sextets, sextets_to_bytes, List.cons.injEq,
      and_true]
    omega
  | case3 a b =>
    have ha := h a (by simp)
    have hb := h b (by simp)
    simp only [bytes_to_sextets, sextets_to_bytes, List.cons.injEq,
      and_true]
    omega
  | case4 a b c rest ih =>
    have ha := h a (by simp)
    have hb := h b (by simp)
    have hc := h c (by simp)
    have ih' := ih (fun x hx => h x (by simp [hx]))
    simp only [bytes_to_sextets, sextets_to_bytes, List.cons.injEq, ih']
    refine ⟨by omega, by omega, by omega, trivial⟩

theorem b64_filter_pad (n : Nat) :
    (b64_pad n).filter (fun c => c ≠ '=') = [] := by
  unfold b64_pad
  split <;> simp

theorem b64_filter_chars (sx : List Nat) (h : ∀ s ∈ sx, s < 64) :
    (sx.map b64_char).filter (fun c => c ≠ '=') = sx.map b64_char := by
  rw [List.filter_eq_self]
  intro c hc
  obtain ⟨s, hs, rfl⟩ := List.mem_map.mp hc
  simpa using b64_char_ne_pad s (h s hs)

theorem map_char_vals_map (sx : List Nat) (h : ∀ s ∈ sx, s < 64) :
    map_char_vals (sx.map b64_char) = some sx := by
  induction sx with
  | nil => rfl
  | cons a l ih =>
    have ha := b64_char_val_b64_char a (h a (by simp))
    have ih' := ih (fun x hx => h x (by simp [hx]))
    simp [map_char_vals, ha, ih']

theorem b64_decode_encode (bs : List Nat) (h : ∀ b ∈ bs, b < 256) :
    b64_decode (b64_encode bs) = some bs := by
  unfold b64_decode b64_encode
  rw [List.filter_append, b64_filter_pad, List.append_nil,
    b64_filter_chars _ (bytes_to_sextets_lt bs h),
    map_char_vals_map _ (bytes_to_sextets_lt bs h)]
  simp [sextets_to_bytes_bytes_to_sextets bs h]

theorem chr_codec_round (s : String) :
    chr_codec.dec (chr_codec.enc s) = some s := by
  obtain ⟨data⟩ := s
  show some (String.mk ((data.map Char.toNat).map Char.ofNat)) =
    some ⟨data⟩
  rw [List.map_map,
    show (Char.ofNat ∘ Char.toNat) = id from
      funext fun c => Char.ofNat_toNat c,
    List.map_id]

/-- C8.  Vault round-trip: for every string x — the empty string included —
decrypting the encryption of x under the same derived key recovers x.  The
embedding keeps the wire layout concrete (fresh 12-byte nonce, base64 of
nonce followed by the GCM output, the split at byte 12 on decryption);
`AESGCM` under a fixed key and the UTF-8 str/bytes codec are library calls
taken as arguments whose contracts are the first two hypotheses, and the
remaining hypotheses say the nonce has 12 bytes and the byte lists are
genuine byte values. -/
theorem vault_round_trip (g : AEAD) (codec : StrCodec) (nonce : List Nat)
    (x : String)
    (hg : ∀ n d, g.dec n (g.enc n d) = some d)
    (hcodec : ∀ s, codec.dec (codec.enc s) = some s)
    (hlen : nonce.length = 12)
    (hnb : ∀ b ∈ nonce, b < 256)
    (hdb : ∀ b ∈ g.enc nonce (codec.enc x), b < 256) :
    decrypt g codec (encrypt g codec nonce x) = some x := by
  have hall : ∀ b ∈ nonce ++ g.enc nonce (codec.enc x), b < 256 := by
    intro b hb
    rcases List.mem_append.mp hb with h | h
    · exact hnb b h
    · exact hdb b h
  unfold decrypt encrypt decrypt_bytes encrypt_bytes
  rw [b64_decode_encode _ hall]
  have ht : (nonce ++ g.enc nonce (codec.enc x)).take 12 = nonce := by
    rw [← hlen]
    exact List.take_left _ _
  have hd : (nonce ++ g.enc nonce (codec.enc x)).drop 12 =
      g.enc nonce (codec.enc x) := by
    rw [← hlen]
    exact List.drop_left _ _
  simp [ht, hd, hg, hcodec]

/-- Witness for C8: the round-trip at the empty string (the spec's own S3
check) under a concrete AEAD and codec satisfying the contracts. -/
theorem vault_round_trip_witness :
    decrypt id_aead chr_codec
        (encrypt id_aead chr_codec [0, 0, 0, 0, 0, 0, 0, 0, 0, 0, 0, 0]
          "") = some "" :=
  vault_round_trip id_aead chr_codec [0, 0, 0, 0, 0, 0, 0, 0, 0, 0, 0, 0]
    "" (fun _ _ => rfl) chr_codec_round rfl (by decide) (by decide)

end CloudShell
